import Mathlib

/-!
Shallow embedding of `src/index.ts` from icco/opentelemetry-js-example.

The one source file exposes `getConfiguration(options) : Partial<NodeSDKConfiguration>`,
a pure assembler from an options record to a telemetry configuration, plus the
MongoDB instrumentation `responseHook` closure it installs. We embed both here:
external SDK constructors (exporters, processors, propagators, sampler, context
manager) are modelled as inert records and tags carrying exactly the data the
source passes to them, while all control flow (JS truthiness gating, conditional
pushes, defaulting with `??`) is translated faithfully from the source.
-/

/-- Mirrors the TS `OpenTelemetryOptions` interface, in source field order.
Optional fields are `Option`; `service` is the only required field. -/
structure OpenTelemetryOptions where
  express : Bool
  nest : Bool
  mongo : Bool
  debug : Bool
  environment : Option String
  service : String
  version : Option String
  sumoTraceURL : Option String
  sumoMetricsURL : Option String
deriving DecidableEq, Repr

/-- JavaScript truthiness of an optional string: `undefined` and `""` are falsy,
every other string is truthy. This is the gate used by
`if (options.sumoTraceURL)` and `if (options.sumoMetricsURL)` in the source. -/
def jsTruthy : Option String → Bool
  | none => false
  | some s => !(s == "")

/-- The resource attribute record built by `new Resource({...})` in the source:
the Sumologic `application` field plus the three standard semantic-convention
attributes. -/
structure Resource where
  application : String
  serviceName : String
  deploymentEnvironment : String
  serviceVersion : String
deriving DecidableEq, Repr

/-- Model of `new OTLPTraceExporter({url})`: an inert record holding the URL. -/
structure OTLPTraceExporter where
  url : String
deriving DecidableEq, Repr

/-- Model of `new BatchSpanProcessor(traceExporter)`. -/
structure BatchSpanProcessor where
  exporter : OTLPTraceExporter
deriving DecidableEq, Repr

/-- Model of `new OTLPMetricExporter({url})`. -/
structure OTLPMetricExporter where
  url : String
deriving DecidableEq, Repr

/-- Model of `new UngroupedProcessor()`: no configuration data. -/
inductive UngroupedProcessor
  | mk
deriving DecidableEq, Repr

/-- The six wire-format propagators the source composes, named after the
constructors used: Jaeger, W3C trace context, W3C baggage, B3 with the default
single-header inject encoding, B3 with multi-header inject encoding, AWS X-Ray. -/
inductive Propagator
  | jaeger
  | w3cTraceContext
  | w3cBaggage
  | b3Single
  | b3Multi
  | awsXRay
deriving DecidableEq, Repr

/-- The auto-instrumentation plugins the source can select. -/
inductive InstrumentationKind
  | http
  | express
  | nest
  | mongo
deriving DecidableEq, Repr

/-- Model of `new AsyncLocalStorageContextManager()`. -/
inductive ContextManagerKind
  | asyncLocalStorage
deriving DecidableEq, Repr

/-- Model of `new AlwaysOnSampler()`. -/
inductive SamplerKind
  | alwaysOn
deriving DecidableEq, Repr

/-- Model of the empty `spanLimits: {}` object literal. -/
inductive SpanLimits
  | empty
deriving DecidableEq, Repr

/-- The record literal returned by `getConfiguration`, field for field.
`CompositePropagator` is modelled as the ordered list of its member
propagators, since ordering is the only data the source supplies. -/
structure NodeSDKConfiguration where
  autoDetectResources : Bool
  contextManager : ContextManagerKind
  defaultAttributes : List (String × String)
  instrumentations : List InstrumentationKind
  metricInterval : Nat
  metricProcessor : Option UngroupedProcessor
  metricExporter : Option OTLPMetricExporter
  resource : Resource
  sampler : SamplerKind
  spanLimits : SpanLimits
  spanProcessor : Option BatchSpanProcessor
  traceExporter : Option OTLPTraceExporter
  textMapPropagator : Option (List Propagator)
deriving DecidableEq, Repr

/-- Embedding of `getConfiguration`. Every branch mirrors the source:
defaulting with `?? "unknown"`, `application = environment`, the truthiness
gates on the two URLs, and the conditional pushes onto the instrumentation
array. The `diag.setLogger` side effect under `options.debug` does not touch
the returned record and is therefore not part of the embedding. -/
def getConfiguration (options : OpenTelemetryOptions) : NodeSDKConfiguration :=
  let version := options.version.getD "unknown"
  let environment := options.environment.getD "unknown"
  let service := options.service
  let application := environment
  let resource : Resource :=
    { application := application
      serviceName := service
      deploymentEnvironment := environment
      serviceVersion := version }
  let tracePart :
      Option OTLPTraceExporter × Option BatchSpanProcessor × Option (List Propagator) :=
    if jsTruthy options.sumoTraceURL then
      let traceExporter : OTLPTraceExporter := { url := options.sumoTraceURL.getD "" }
      (some traceExporter,
       some { exporter := traceExporter },
       some [Propagator.jaeger, Propagator.w3cTraceContext, Propagator.w3cBaggage,
             Propagator.b3Single, Propagator.b3Multi, Propagator.awsXRay])
    else
      (none, none, none)
  let metricPart : Option OTLPMetricExporter × Option UngroupedProcessor :=
    if jsTruthy options.sumoMetricsURL then
      (some { url := options.sumoMetricsURL.getD "" }, some UngroupedProcessor.mk)
    else
      (none, none)
  let instrumentations : List InstrumentationKind :=
    [InstrumentationKind.http]
      ++ (if options.express then [InstrumentationKind.express] else [])
      ++ (if options.nest then [InstrumentationKind.nest] else [])
      ++ (if options.mongo then [InstrumentationKind.mongo] else [])
  { autoDetectResources := true
    contextManager := ContextManagerKind.asyncLocalStorage
    defaultAttributes := []
    instrumentations := instrumentations
    metricInterval := 1000
    metricProcessor := metricPart.2
    metricExporter := metricPart.1
    resource := resource
    sampler := SamplerKind.alwaysOn
    spanLimits := SpanLimits.empty
    spanProcessor := tracePart.2.1
    traceExporter := tracePart.1
    textMapPropagator := tracePart.2.2 }

/-- A small model of the JavaScript values that appear in a MongoDB response
and get `JSON.stringify`-ed into span attributes. -/
inductive JsValue
  | str (s : String)
  | num (n : Int)
  | boolean (b : Bool)
  | null
deriving DecidableEq, Repr

/-- Model of `JSON.stringify` on the values above (escaping inside strings is
not modelled; none of the claims depend on it). -/
def stringifyJs : JsValue → String
  | JsValue.str s => "\"" ++ s ++ "\""
  | JsValue.num n => toString n
  | JsValue.boolean true => "true"
  | JsValue.boolean false => "false"
  | JsValue.null => "null"

/-- The `result` document of a MongoDB response: its `operationTime` field may
be absent (`undefined`), and it may carry arbitrary further fields (such as a
`secret` payload), modelled as an association list the hook never reads. -/
structure MongoResult where
  operationTime : Option JsValue
  extra : List (String × JsValue)
deriving DecidableEq, Repr

/-- The `responseInfo.data` object handed to the response hook: `result` and
`connection` may each be absent (`undefined`). `connection` is an object whose
entries `Object.entries` enumerates in insertion order, modelled as a list. -/
structure MongoResponseData where
  result : Option MongoResult
  connection : Option (List (String × JsValue))
deriving DecidableEq, Repr

/-- A thrown JavaScript exception, as raised by reading a property of
`undefined`. -/
inductive JsError
  | typeError
deriving DecidableEq, Repr

/-- Embedding of the MongoDB instrumentation `responseHook` closure. It reads
`responseInfo.data.result.operationTime` without first checking that `result`
is defined, so a missing `result` raises a TypeError; `connection` is guarded
by an explicit `!== undefined` check. On success it returns the list of
`span.setAttribute` calls in execution order. The closure captures
`options.debug`, passed here as the `debug` parameter. -/
def responseHook (debug : Bool) (data : MongoResponseData) :
    Except JsError (List (String × String)) :=
  match data.result with
  | none => Except.error JsError.typeError
  | some result =>
    let opAttrs : List (String × String) :=
      match result.operationTime with
      | some t => [("db.operation_time", stringifyJs t)]
      | none => []
    let connAttrs : List (String × String) :=
      match data.connection with
      | some conn => conn.map (fun kv => ("db.connection." ++ kv.1, stringifyJs kv.2))
      | none => []
    let debugAttrs : List (String × String) :=
      if debug then [("config.debug", "true")] else []
    Except.ok (opAttrs ++ connAttrs ++ debugAttrs)

/-- Boolean view of whether the hook completes without raising. -/
def hookOk (debug : Bool) (data : MongoResponseData) : Bool :=
  match responseHook debug data with
  | Except.ok _ => true
  | Except.error _ => false

/-- Spec-style description of which flags enable which instrumentation:
HTTP is unconditional, the others follow their option flag. -/
def instrumentationEnabled (o : OpenTelemetryOptions) : InstrumentationKind → Bool
  | InstrumentationKind.http => true
  | InstrumentationKind.express => o.express
  | InstrumentationKind.nest => o.nest
  | InstrumentationKind.mongo => o.mongo

/-- The provenance an attribute written by the hook is allowed to have:
the stringified `operationTime` of a present result, a stringified entry of a
present connection object under a `db.connection.` key, or the literal debug
marker when the debug flag is on. Note that `MongoResult.extra` (the rest of
the result payload, e.g. a `secret` field) appears nowhere here. -/
def allowedAttr (debug : Bool) (data : MongoResponseData) (kv : String × String) : Prop :=
  (∃ r t, data.result = some r ∧ r.operationTime = some t ∧
      kv = ("db.operation_time", stringifyJs t)) ∨
  (∃ conn k v, data.connection = some conn ∧ (k, v) ∈ conn ∧
      kv = ("db.connection." ++ k, stringifyJs v)) ∨
  (debug = true ∧ kv = ("config.debug", "true"))

/-- Claim C3: for every options record whose `sumoTraceURL` is set (to a
nonempty string, the truthy case of the source gate), the composed propagator
is exactly the ordered list Jaeger, W3C trace context, W3C baggage, B3
single-header, B3 multi-header, AWS X-Ray. -/
theorem textMapPropagator_order (o : OpenTelemetryOptions) (u : String)
    (h1 : o.sumoTraceURL = some u) (h2 : u ≠ "") :
    (getConfiguration o).textMapPropagator =
      some [Propagator.jaeger, Propagator.w3cTraceContext, Propagator.w3cBaggage,
            Propagator.b3Single, Propagator.b3Multi, Propagator.awsXRay] := by
  simp [getConfiguration, jsTruthy, h1, h2]

/-- Witness for C3 at a concrete options record with a trace URL. -/
theorem textMapPropagator_order_witness :
    (getConfiguration
        { express := false, nest := false, mongo := false, debug := false,
          environment := none, service := "svc", version := none,
          sumoTraceURL := some "https://collector/traces",
          sumoMetricsURL := none }).textMapPropagator =
      some [Propagator.jaeger, Propagator.w3cTraceContext, Propagator.w3cBaggage,
            Propagator.b3Single, Propagator.b3Multi, Propagator.awsXRay] :=
  textMapPropagator_order
    { express := false, nest := false, mongo := false, debug := false,
      environment := none, service := "svc", version := none,
      sumoTraceURL := some "https://collector/traces",
      sumoMetricsURL := none }
    "https://collector/traces" rfl (by decide)

/-- Claim C4: for every options record with `sumoTraceURL` unset, the returned
configuration has no propagator, no span processor, and no trace exporter. -/
theorem trace_fields_absent_when_unset (o : OpenTelemetryOptions)
    (h : o.sumoTraceURL = none) :
    (getConfiguration o).textMapPropagator = none ∧
    (getConfiguration o).spanProcessor = none ∧
    (getConfiguration o).traceExporter = none := by
  refine ⟨?_, ?_, ?_⟩ <;> simp [getConfiguration, jsTruthy, h]

/-- Witness for C4 at a concrete options record without a trace URL. -/
theorem trace_fields_absent_when_unset_witness :
    (getConfiguration
        { express := false, nest := false, mongo := false, debug := false,
          environment := none, service := "svc", version := none,
          sumoTraceURL := none, sumoMetricsURL := none }).textMapPropagator = none ∧
    (getConfiguration
        { express := false, nest := false, mongo := false, debug := false,
          environment := none, service := "svc", version := none,
          sumoTraceURL := none, sumoMetricsURL := none }).spanProcessor = none ∧
    (getConfiguration
        { express := false, nest := false, mongo := false, debug := false,
          environment := none, service := "svc", version := none,
          sumoTraceURL := none, sumoMetricsURL := none }).traceExporter = none :=
  trace_fields_absent_when_unset
    { express := false, nest := false, mongo := false, debug := false,
      environment := none, service := "svc", version := none,
      sumoTraceURL := none, sumoMetricsURL := none } rfl

/-- Claim C5: the instrumentation list always starts with HTTP and appends the
express (web-framework), nest (RPC-framework), and mongo (database) plugins
exactly when their flags are true, in that fixed order; equivalently it is the
filter of the fixed order [http, express, nest, mongo] by the enabled flags.
In particular express and mongo on with nest off gives [http, express, mongo]. -/
theorem instrumentations_order (o : OpenTelemetryOptions) :
    (getConfiguration o).instrumentations =
      [InstrumentationKind.http, InstrumentationKind.express,
       InstrumentationKind.nest, InstrumentationKind.mongo].filter
        (instrumentationEnabled o) ∧
    (o.express = true → o.mongo = true → o.nest = false →
      (getConfiguration o).instrumentations =
        [InstrumentationKind.http, InstrumentationKind.express,
         InstrumentationKind.mongo]) := by
  obtain ⟨ex, ne, mo, db, env, sv, ver, tu, mu⟩ := o
  cases ex <;> cases ne <;> cases mo <;>
    simp [getConfiguration, instrumentationEnabled, List.filter]

/-- Witness for C5 at a concrete options record with express and mongo on and
nest off. -/
theorem instrumentations_order_witness :
    (getConfiguration
        { express := true, nest := false, mongo := true, debug := false,
          environment := none, service := "svc", version := none,
          sumoTraceURL := none, sumoMetricsURL := none }).instrumentations =
      [InstrumentationKind.http, InstrumentationKind.express,
       InstrumentationKind.mongo] :=
  (instrumentations_order
    { express := true, nest := false, mongo := true, debug := false,
      environment := none, service := "svc", version := none,
      sumoTraceURL := none, sumoMetricsURL := none }).2 rfl rfl rfl

/-- Claim C6: resource resolution is total, defaults absent version and
environment to the string unknown, and always sets the Sumologic application
attribute equal to the resolved environment; at the spec scenario options
(service checkout, environment prod, a trace URL, no metrics URL) the resource
is as stated, the trace pipeline is present and the metric pipeline absent. -/
theorem resource_resolution (o : OpenTelemetryOptions) :
    ((getConfiguration o).resource.serviceName = o.service ∧
     (getConfiguration o).resource.deploymentEnvironment = o.environment.getD "unknown" ∧
     (getConfiguration o).resource.serviceVersion = o.version.getD "unknown" ∧
     (getConfiguration o).resource.application =
       (getConfiguration o).resource.deploymentEnvironment) ∧
    (o.service = "checkout" → o.environment = some "prod" → o.version = none →
     o.sumoTraceURL = some "https://collector/traces" → o.sumoMetricsURL = none →
      ((getConfiguration o).resource =
        { application := "prod", serviceName := "checkout",
          deploymentEnvironment := "prod", serviceVersion := "unknown" } ∧
       ((getConfiguration o).traceExporter).isSome = true ∧
       ((getConfiguration o).spanProcessor).isSome = true ∧
       (getConfiguration o).metricExporter = none ∧
       (getConfiguration o).metricProcessor = none)) := by
  constructor
  · refine ⟨?_, ?_, ?_, ?_⟩ <;> simp [getConfiguration]
  · intro hs he hv ht hm
    refine ⟨?_, ?_, ?_, ?_, ?_⟩ <;>
      simp [getConfiguration, jsTruthy, hs, he, hv, ht, hm]

/-- Witness for C6 at the concrete scenario options record. -/
theorem resource_resolution_witness :
    (getConfiguration
        { express := false, nest := false, mongo := false, debug := false,
          environment := some "prod", service := "checkout", version := none,
          sumoTraceURL := some "https://collector/traces",
          sumoMetricsURL := none }).resource =
      { application := "prod", serviceName := "checkout",
        deploymentEnvironment := "prod", serviceVersion := "unknown" } ∧
    ((getConfiguration
        { express := false, nest := false, mongo := false, debug := false,
          environment := some "prod", service := "checkout", version := none,
          sumoTraceURL := some "https://collector/traces",
          sumoMetricsURL := none }).traceExporter).isSome = true ∧
    ((getConfiguration
        { express := false, nest := false, mongo := false, debug := false,
          environment := some "prod", service := "checkout", version := none,
          sumoTraceURL := some "https://collector/traces",
          sumoMetricsURL := none }).spanProcessor).isSome = true ∧
    (getConfiguration
        { express := false, nest := false, mongo := false, debug := false,
          environment := some "prod", service := "checkout", version := none,
          sumoTraceURL := some "https://collector/traces",
          sumoMetricsURL := none }).metricExporter = none ∧
    (getConfiguration
        { express := false, nest := false, mongo := false, debug := false,
          environment := some "prod", service := "checkout", version := none,
          sumoTraceURL := some "https://collector/traces",
          sumoMetricsURL := none }).metricProcessor = none :=
  (resource_resolution
    { express := false, nest := false, mongo := false, debug := false,
      environment := some "prod", service := "checkout", version := none,
      sumoTraceURL := some "https://collector/traces",
      sumoMetricsURL := none }).2 rfl rfl rfl rfl rfl

/-- Counterexample to claim C7 as stated: with `sumoMetricsURL` unset the
metrics exporter and processor are indeed absent, yet the 1000ms collection
interval field is still present in the returned configuration, so the interval
is not gated by the metrics endpoint as the claim asserts. -/
theorem metricInterval_present_without_metrics :
    (getConfiguration
        { express := false, nest := false, mongo := false, debug := false,
          environment := none, service := "svc", version := none,
          sumoTraceURL := none, sumoMetricsURL := none }).metricExporter = none ∧
    (getConfiguration
        { express := false, nest := false, mongo := false, debug := false,
          environment := none, service := "svc", version := none,
          sumoTraceURL := none, sumoMetricsURL := none }).metricProcessor = none ∧
    (getConfiguration
        { express := false, nest := false, mongo := false, debug := false,
          environment := none, service := "svc", version := none,
          sumoTraceURL := none, sumoMetricsURL := none }).metricInterval = 1000 :=
  ⟨rfl, rfl, rfl⟩

/-- Claim C7 as amended: for every options record, the metrics exporter and
the ungrouped aggregation processor are present exactly when `sumoMetricsURL`
is truthy, independently of all trace settings, while the `metricInterval`
field is unconditionally 1000, whether or not a metrics endpoint is set. -/
theorem metric_pipeline_gating (o : OpenTelemetryOptions) :
    ((getConfiguration o).metricExporter.isSome = jsTruthy o.sumoMetricsURL) ∧
    ((getConfiguration o).metricProcessor.isSome = jsTruthy o.sumoMetricsURL) ∧
    (getConfiguration o).metricInterval = 1000 := by
  refine ⟨?_, ?_, rfl⟩ <;>
    · simp only [getConfiguration]
      cases h : jsTruthy o.sumoMetricsURL <;> simp [h]

/-- Claim C8: assembly is deterministic; two calls of `getConfiguration` on
the same options yield configurations whose resource, instrumentation list,
and propagator ordering are field for field equal. -/
theorem getConfiguration_deterministic (o : OpenTelemetryOptions)
    (c1 c2 : NodeSDKConfiguration)
    (h1 : getConfiguration o = c1) (h2 : getConfiguration o = c2) :
    c1.resource = c2.resource ∧
    c1.instrumentations = c2.instrumentations ∧
    c1.textMapPropagator = c2.textMapPropagator := by
  subst h1; subst h2; exact ⟨rfl, rfl, rfl⟩

/-- Witness for C8 at a concrete options record. -/
theorem getConfiguration_deterministic_witness :
    (getConfiguration
        { express := true, nest := false, mongo := true, debug := false,
          environment := some "prod", service := "svc", version := none,
          sumoTraceURL := some "https://collector/traces",
          sumoMetricsURL := none }).resource =
      (getConfiguration
        { express := true, nest := false, mongo := true, debug := false,
          environment := some "prod", service := "svc", version := none,
          sumoTraceURL := some "https://collector/traces",
          sumoMetricsURL := none }).resource ∧
    (getConfiguration
        { express := true, nest := false, mongo := true, debug := false,
          environment := some "prod", service := "svc", version := none,
          sumoTraceURL := some "https://collector/traces",
          sumoMetricsURL := none }).instrumentations =
      (getConfiguration
        { express := true, nest := false, mongo := true, debug := false,
          environment := some "prod", service := "svc", version := none,
          sumoTraceURL := some "https://collector/traces",
          sumoMetricsURL := none }).instrumentations ∧
    (getConfiguration
        { express := true, nest := false, mongo := true, debug := false,
          environment := some "prod", service := "svc", version := none,
          sumoTraceURL := some "https://collector/traces",
          sumoMetricsURL := none }).textMapPropagator =
      (getConfiguration
        { express := true, nest := false, mongo := true, debug := false,
          environment := some "prod", service := "svc", version := none,
          sumoTraceURL := some "https://collector/traces",
          sumoMetricsURL := none }).textMapPropagator :=
  getConfiguration_deterministic
    { express := true, nest := false, mongo := true, debug := false,
      environment := some "prod", service := "svc", version := none,
      sumoTraceURL := some "https://collector/traces",
      sumoMetricsURL := none }
    (getConfiguration
      { express := true, nest := false, mongo := true, debug := false,
        environment := some "prod", service := "svc", version := none,
        sumoTraceURL := some "https://collector/traces",
        sumoMetricsURL := none })
    (getConfiguration
      { express := true, nest := false, mongo := true, debug := false,
        environment := some "prod", service := "svc", version := none,
        sumoTraceURL := some "https://collector/traces",
        sumoMetricsURL := none })
    rfl rfl

/-- Claim C10: an empty-string destination URL is falsy under the JS
truthiness gate, so the whole configuration produced for an empty-string
`sumoTraceURL` or `sumoMetricsURL` equals the one produced with the field
unset; in particular the corresponding exporter, processor, and for traces the
propagator, are absent. -/
theorem emptyString_same_as_unset (o : OpenTelemetryOptions) :
    getConfiguration { o with sumoTraceURL := some "" } =
      getConfiguration { o with sumoTraceURL := none } ∧
    getConfiguration { o with sumoMetricsURL := some "" } =
      getConfiguration { o with sumoMetricsURL := none } ∧
    (getConfiguration { o with sumoTraceURL := some "" }).traceExporter = none ∧
    (getConfiguration { o with sumoTraceURL := some "" }).spanProcessor = none ∧
    (getConfiguration { o with sumoTraceURL := some "" }).textMapPropagator = none ∧
    (getConfiguration { o with sumoMetricsURL := some "" }).metricExporter = none ∧
    (getConfiguration { o with sumoMetricsURL := some "" }).metricProcessor = none := by
  refine ⟨rfl, rfl, ?_, ?_, ?_, ?_, ?_⟩ <;> simp [getConfiguration, jsTruthy]

/-- Counterexample to claim C1 as stated: at an options record whose `service`
is the empty string, `getConfiguration` does not fail; it returns an ordinary
configuration whose resource carries the empty service name (the source has no
validation and no throw path at all). -/
theorem getConfiguration_emptyService_returns :
    (getConfiguration
        { express := false, nest := false, mongo := false, debug := false,
          environment := none, service := "", version := none,
          sumoTraceURL := none, sumoMetricsURL := none }).resource =
      { application := "unknown", serviceName := "",
        deploymentEnvironment := "unknown", serviceVersion := "unknown" } :=
  rfl

/-- Claim C1 as amended: for every options record with `service` empty,
`getConfiguration` performs no validation and returns a configuration whose
resource has the empty string as its service name. -/
theorem getConfiguration_emptyService_serviceName (o : OpenTelemetryOptions)
    (h : o.service = "") :
    (getConfiguration o).resource.serviceName = "" := by
  simp [getConfiguration, h]

/-- Witness for the amended C1 at a concrete options record with empty
service. -/
theorem getConfiguration_emptyService_serviceName_witness :
    (getConfiguration
        { express := false, nest := false, mongo := false, debug := true,
          environment := some "dev", service := "", version := some "1.0",
          sumoTraceURL := none, sumoMetricsURL := none }).resource.serviceName = "" :=
  getConfiguration_emptyService_serviceName
    { express := false, nest := false, mongo := false, debug := true,
      environment := some "dev", service := "", version := some "1.0",
      sumoTraceURL := none, sumoMetricsURL := none } rfl

/-- Counterexample to claim C2 as stated: a response whose `data.result` is
absent makes the hook raise a TypeError, because the source reads
`responseInfo.data.result.operationTime` without guarding `result`; the
instrumented call is aborted by the throw rather than merely losing an
attribute, even though `connection` is present. -/
theorem responseHook_missingResult_raises :
    responseHook false
        { result := none,
          connection := some [("host", JsValue.str "db1")] } =
      Except.error JsError.typeError :=
  rfl

/-- Claim C2 as amended: the hook completes without raising for every response
whose `data.result` is defined, including responses whose `connection` or
`result.operationTime` is missing (those only omit the corresponding
attributes); only an absent `result` makes it raise. -/
theorem responseHook_result_present_ok (debug : Bool) (data : MongoResponseData)
    (h : data.result.isSome = true) :
    hookOk debug data = true := by
  obtain ⟨res, conn⟩ := data
  cases res with
  | none => simp at h
  | some r => simp [hookOk, responseHook]

/-- Witness for the amended C2 at a concrete response missing both
`connection` and `operationTime`. -/
theorem responseHook_result_present_ok_witness :
    ({ result := some { operationTime := none, extra := [] },
       connection := none } : MongoResponseData).result.isSome = true ∧
    hookOk true
      { result := some { operationTime := none, extra := [] },
        connection := none } = true :=
  ⟨rfl,
   responseHook_result_present_ok true
     { result := some { operationTime := none, extra := [] },
       connection := none } rfl⟩

/-- Claim C9: every attribute the hook writes on success is either the
stringified `operationTime` of the present result, a `db.connection.` entry
stringified from the connection object, or the `config.debug` marker when the
debug flag is on; no attribute is derived from the rest of the result payload
(`MongoResult.extra`, e.g. a `secret` field, does not occur in `allowedAttr`). -/
theorem responseHook_attr_provenance (debug : Bool) (data : MongoResponseData)
    (attrs : List (String × String))
    (h : responseHook debug data = Except.ok attrs) :
    ∀ kv ∈ attrs, allowedAttr debug data kv := by
  obtain ⟨res, conn⟩ := data
  cases res with
  | none => simp [responseHook] at h
  | some r =>
    simp only [responseHook, Except.ok.injEq] at h
    subst h
    intro kv hkv
    rw [List.mem_append, List.mem_append] at hkv
    rcases hkv with (hop | hconn) | hdbg
    · cases hot : r.operationTime with
      | none => rw [hot] at hop; simp at hop
      | some t =>
        rw [hot] at hop
        simp only [List.mem_singleton] at hop
        exact Or.inl ⟨r, t, rfl, hot, hop⟩
    · cases conn with
      | none => simp at hconn
      | some c =>
        simp only [List.mem_map] at hconn
        obtain ⟨⟨k, v⟩, hmem, hkv⟩ := hconn
        exact Or.inr (Or.inl ⟨c, k, v, rfl, hmem, hkv.symm⟩)
    · cases debug with
      | false => simp at hdbg
      | true =>
        simp only [if_true, List.mem_singleton] at hdbg
        exact Or.inr (Or.inr ⟨rfl, hdbg⟩)

/-- Witness for C9 at the spec scenario response: the hook yields exactly the
operation-time and connection-host attributes (nothing from the `secret`
field), and the operation-time attribute has an allowed provenance. -/
theorem responseHook_attr_provenance_witness :
    responseHook false
        { result := some { operationTime := some (JsValue.num 5),
                           extra := [("secret", JsValue.str "x")] },
          connection := some [("host", JsValue.str "db1")] } =
      Except.ok [("db.operation_time", "5"), ("db.connection.host", "\"db1\"")] ∧
    allowedAttr false
      { result := some { operationTime := some (JsValue.num 5),
                         extra := [("secret", JsValue.str "x")] },
        connection := some [("host", JsValue.str "db1")] }
      ("db.operation_time", "5") :=
  ⟨rfl,
   responseHook_attr_provenance false
     { result := some { operationTime := some (JsValue.num 5),
                        extra := [("secret", JsValue.str "x")] },
       connection := some [("host", JsValue.str "db1")] }
     [("db.operation_time", "5"), ("db.connection.host", "\"db1\"")]
     rfl ("db.operation_time", "5") (by simp)⟩
